import Mathlib

/-!
Verification of the device-connectivity core of the `python-roborock` library.

Shallow embedding of the code under `src/roborock/`: the HELLO protocol
negotiation of `devices/local_channel.py` and
`version_1_apis/roborock_local_client_v1.py`, the B01 Q10 data-point
flattening and fire-and-forget command path of `devices/b01_q10_channel.py`,
the request/response correlation of `LocalChannel.send_message`, the
reconnect loop and backoff of `devices/device.py`, and the cloud-only
gate of `RoborockLocalClientV1._send_command`.

Machine integers are modelled as `Nat` (none of the verified code paths
overflow-wrap); payload bytes as `Option String`; fallible code returns
`Except` or `Option`.
-/

/-- Wire unit exchanged with a device.  Embeds the fields of
`RoborockMessage` (module `roborock/roborock_message.py`) that the verified
code reads or writes: `protocol` tag, `seq`uence number, `random` nonce,
3-byte ASCII `version`, optional opaque `payload`.  Modelled from the spec:
`roborock_message.py` itself is not under `src/`; per spec section 4.1 a
HELLO frame carries a zero-length payload, so a message built without a
payload argument has `payload = none`. -/
structure RoborockMessage where
  protocol : Nat
  seq : Nat := 0
  random : Nat := 0
  version : String := "1.0"
  payload : Option String := none
deriving DecidableEq, Repr

/-- Protocol tag of a HELLO request (`RoborockMessageProtocol.HELLO_REQUEST`). -/
def HELLO_REQUEST : Nat := 0

/-- Protocol tag of a HELLO response (`RoborockMessageProtocol.HELLO_RESPONSE`). -/
def HELLO_RESPONSE : Nat := 1

/-- Protocol tag of a general request (`RoborockMessageProtocol.GENERAL_REQUEST`);
value 4 as recorded in the comment in `devices/device.py`. -/
def GENERAL_REQUEST : Nat := 4

/-- Protocol tag of an RPC response (`RoborockMessageProtocol.RPC_RESPONSE`);
value 102 as recorded in the comment in `devices/device.py`. -/
def RPC_RESPONSE : Nat := 102

/-- Protocol tag of a map response (`RoborockMessageProtocol.MAP_RESPONSE`). -/
def MAP_RESPONSE : Nat := 301

/-- Local protocol versions understood by the local channel.  Modelled from
the spec: the enum `LocalProtocolVersion` lives in
`roborock/protocols/v1_protocol.py` which is not under `src/`; per spec
section 4.1 the two dialects are the 3-byte ASCII strings "1.0" and "L01". -/
inductive LocalProtocolVersion where
  | v1
  | l01
deriving DecidableEq, Repr

/-- Wire encoding of a `LocalProtocolVersion` (its `.encode()` in the source). -/
def LocalProtocolVersion.encode : LocalProtocolVersion → String
  | .v1 => "1.0"
  | .l01 => "L01"

/-- Parameters for the local channel encoder/decoder
(`LocalChannelParams` in `devices/local_channel.py`). -/
structure LocalChannelParams where
  local_key : String
  connect_nonce : Nat
  ack_nonce : Option Nat
deriving DecidableEq, Repr

/-- Behaviour of the device during protocol negotiation: for an attempted
version, the HELLO response delivered to the waiter within the timeout, or
`none` when `send_message` raises (no response / failure). -/
def HelloBehavior : Type := LocalProtocolVersion → Option RoborockMessage

/-- The HELLO request built by `LocalChannel._do_hello`
(`devices/local_channel.py` lines 87-92): protocol `HELLO_REQUEST`,
the attempted version, `random = connect_nonce`, `seq = 1`, no payload. -/
def do_hello_request (connect_nonce : Nat) (v : LocalProtocolVersion) : RoborockMessage :=
  { protocol := HELLO_REQUEST, version := v.encode, random := connect_nonce, seq := 1 }

/-- Embeds `LocalChannel._do_hello` (`devices/local_channel.py` lines 80-114):
sends the HELLO request; on a response, returns
`LocalChannelParams(local_key, connect_nonce, ack_nonce := response.random)` —
the response's advertised version is not inspected; on a `RoborockException`
returns `none`. -/
def do_hello (local_key : String) (connect_nonce : Nat) (behavior : HelloBehavior)
    (v : LocalProtocolVersion) : Option LocalChannelParams :=
  match behavior v with
  | some response =>
      some { local_key := local_key, connect_nonce := connect_nonce,
             ack_nonce := some response.random }
  | none => none

/-- Version order attempted by `LocalChannel._hello`
(`devices/local_channel.py` lines 118-121): the list `[V1, L01]`, stably
sorted by the key `v ≠ preferred` when a preferred version is set, so the
preferred version comes first; with no preferred version (or preferred V1)
the order is `[V1, L01]`. -/
def attempt_versions (preferred : Option LocalProtocolVersion) : List LocalProtocolVersion :=
  match preferred with
  | some .l01 => [.l01, .v1]
  | _ => [.v1, .l01]

/-- Negotiation-relevant state of a `LocalChannel`: the fields
`_connect_nonce`, `_ack_nonce` and `_local_protocol_version` of
`devices/local_channel.py`. -/
structure LocalChannelHelloState where
  connect_nonce : Nat
  ack_nonce : Option Nat
  local_protocol_version : Option LocalProtocolVersion
deriving DecidableEq, Repr

/-- One pass of the `for version in attempt_versions` loop of
`LocalChannel._hello`: returns the HELLO requests actually sent (one per
attempted version, stopping after the first success) and, on success, the
negotiated params and version. -/
def hello_go (local_key : String) (connect_nonce : Nat) (behavior : HelloBehavior) :
    List LocalProtocolVersion →
    List RoborockMessage × Option (LocalChannelParams × LocalProtocolVersion)
  | [] => ([], none)
  | v :: rest =>
      match do_hello local_key connect_nonce behavior v with
      | some params => ([do_hello_request connect_nonce v], some (params, v))
      | none =>
          let tail := hello_go local_key connect_nonce behavior rest
          (do_hello_request connect_nonce v :: tail.1, tail.2)

/-- Embeds `LocalChannel._hello` (`devices/local_channel.py` lines 116-131):
tries each version of `attempt_versions`; the first success stores
`_ack_nonce := params.ack_nonce` and `_local_protocol_version := version`
and installs the new encoder/decoder; if every attempt fails, raises
`RoborockException("Failed to connect to device with any known protocol")`.
Also returns the list of HELLO requests sent. -/
def hello (local_key : String) (behavior : HelloBehavior) (s : LocalChannelHelloState) :
    List RoborockMessage × Except String LocalChannelHelloState :=
  match hello_go local_key s.connect_nonce behavior (attempt_versions s.local_protocol_version) with
  | (reqs, some (params, v)) =>
      (reqs, .ok { s with ack_nonce := params.ack_nonce, local_protocol_version := some v })
  | (reqs, none) =>
      (reqs, .error "Failed to connect to device with any known protocol")

/-- Embeds `RoborockLocalClientV1._do_hello`
(`version_1_apis/roborock_local_client_v1.py` lines 125-151): sends the
HELLO request for `version`; on a response, sets
`_ack_nonce := response.random` if and only if the response's decoded
version equals "L01" (otherwise `_ack_nonce` keeps its prior value), and
returns `true`; on a `RoborockException`, returns `false` with
`_ack_nonce` unchanged.  The behaviour is keyed by the version string the
client sends. -/
def client_do_hello (behavior : String → Option RoborockMessage) (version : String)
    (ack_nonce : Option Nat) : Bool × Option Nat :=
  match behavior version with
  | some response =>
      (true, if response.version = "L01" then some response.random else ack_nonce)
  | none => (false, ack_nonce)

/-- CLAIM C1 as stated is false on `devices/local_channel.py`: a HELLO
exchange in which the device answers the "1.0" attempt with a response
advertising version "1.0" and `random = 54321` still records
`ack_nonce = 54321`; `LocalChannel._do_hello` never inspects the response's
version.  (The claim's "no ack_nonce is recorded" would require the
`ack_nonce` field of the returned params to be `none`.) -/
theorem c1_counterexample :
    do_hello "abcdefghijklmnop" 11111
        (fun _ => some { protocol := HELLO_RESPONSE, seq := 1, random := 54321,
                         version := "1.0" })
        LocalProtocolVersion.v1 =
      some { local_key := "abcdefghijklmnop", connect_nonce := 11111,
             ack_nonce := some 54321 } ∧
    (some 54321 : Option Nat) ≠ none := by
  constructor
  · rfl
  · simp

/-- CLAIM C1 (corrected).  In `LocalChannel` (`devices/local_channel.py`)
every successful HELLO exchange records `ack_nonce` from the response's
`random` field regardless of the version the response advertises; the
HELLO flow never modifies `connect_nonce` (it is fixed at construction);
and in `RoborockLocalClientV1` (`version_1_apis/roborock_local_client_v1.py`)
the `ack_nonce` is recorded from the response's `random` if and only if the
response advertises "L01", otherwise it keeps its prior value. -/
theorem c1_hello_ack_nonce_recording
    (local_key : String) (connect_nonce : Nat) (behavior : HelloBehavior)
    (v : LocalProtocolVersion) (response : RoborockMessage)
    (hresp : behavior v = some response)
    (behaviorC : String → Option RoborockMessage) (version : String)
    (responseC : RoborockMessage) (ack0 : Option Nat)
    (hrespC : behaviorC version = some responseC) :
    do_hello local_key connect_nonce behavior v =
      some { local_key := local_key, connect_nonce := connect_nonce,
             ack_nonce := some response.random } ∧
    (∀ (lk : String) (b : HelloBehavior) (s s' : LocalChannelHelloState),
      (hello lk b s).2 = .ok s' → s'.connect_nonce = s.connect_nonce) ∧
    (client_do_hello behaviorC version ack0).2 =
      (if responseC.version = "L01" then some responseC.random else ack0) := by
  refine ⟨?_, ?_, ?_⟩
  · simp [do_hello, hresp]
  · intro lk b s s' h
    unfold hello at h
    rcases hgo : hello_go lk s.connect_nonce b (attempt_versions s.local_protocol_version) with
      ⟨reqs, res⟩
    rw [hgo] at h
    cases res with
    | none => simp at h
    | some pv =>
        simp at h
        subst h
        rfl
  · simp [client_do_hello, hrespC]

/-- Witness for `c1_hello_ack_nonce_recording` at a concrete input: a device
that answers version "1.0" with a "1.0" response carrying `random = 7777`,
and a V1-client exchange whose response advertises "L01". -/
theorem c1_hello_ack_nonce_recording_witness :
    do_hello "k0123456789abcde" 12000
        (fun _ => some { protocol := HELLO_RESPONSE, seq := 1, random := 7777,
                         version := "1.0" })
        LocalProtocolVersion.v1 =
      some { local_key := "k0123456789abcde", connect_nonce := 12000,
             ack_nonce := some 7777 } ∧
    (∀ (lk : String) (b : HelloBehavior) (s s' : LocalChannelHelloState),
      (hello lk b s).2 = .ok s' → s'.connect_nonce = s.connect_nonce) ∧
    (client_do_hello
        (fun _ => some { protocol := HELLO_RESPONSE, seq := 1, random := 54321,
                         version := "L01" })
        "L01" none).2 =
      (if ("L01" : String) = "L01" then some 54321 else none) := by
  exact c1_hello_ack_nonce_recording "k0123456789abcde" 12000
    (fun _ => some { protocol := HELLO_RESPONSE, seq := 1, random := 7777, version := "1.0" })
    LocalProtocolVersion.v1
    { protocol := HELLO_RESPONSE, seq := 1, random := 7777, version := "1.0" }
    rfl
    (fun _ => some { protocol := HELLO_RESPONSE, seq := 1, random := 54321, version := "L01" })
    "L01"
    { protocol := HELLO_RESPONSE, seq := 1, random := 54321, version := "L01" }
    none
    rfl

/-- CLAIM C3 (confirmed).  With no injected preferred version, the first
HELLO request sent by `LocalChannel._hello` carries version "1.0",
`seq = 1`, `random = connect_nonce` and an empty payload; when the "1.0"
attempt gets no response (or fails), exactly one retry with version "L01"
follows; when both attempts fail the connect fails with the error
"Failed to connect to device with any known protocol"; and when a
preferred version is injected, that version is attempted first. -/
theorem c3_hello_version_negotiation
    (local_key : String) (behavior : HelloBehavior) (s : LocalChannelHelloState)
    (hno : s.local_protocol_version = none) :
    (hello local_key behavior s).1.head? = some (do_hello_request s.connect_nonce .v1) ∧
    do_hello_request s.connect_nonce .v1 =
      { protocol := HELLO_REQUEST, version := "1.0", seq := 1,
        random := s.connect_nonce, payload := none } ∧
    (behavior .v1 = none →
      (hello local_key behavior s).1 =
        [do_hello_request s.connect_nonce .v1, do_hello_request s.connect_nonce .l01]) ∧
    (behavior .v1 = none → behavior .l01 = none →
      (hello local_key behavior s).2 =
        .error "Failed to connect to device with any known protocol") ∧
    (∀ (pref : LocalProtocolVersion) (s2 : LocalChannelHelloState),
      s2.local_protocol_version = some pref →
      (hello local_key behavior s2).1.head? = some (do_hello_request s2.connect_nonce pref)) := by
  refine ⟨?_, ?_, ?_, ?_, ?_⟩
  · unfold hello
    rcases h1 : behavior .v1 with _ | r1
    · rcases h2 : behavior .l01 with _ | r2
      · simp [attempt_versions, hno, hello_go, do_hello, h1, h2]
      · simp [attempt_versions, hno, hello_go, do_hello, h1, h2]
    · simp [attempt_versions, hno, hello_go, do_hello, h1]
  · rfl
  · intro h1
    unfold hello
    rcases h2 : behavior .l01 with _ | r2
    · simp [attempt_versions, hno, hello_go, do_hello, h1, h2]
    · simp [attempt_versions, hno, hello_go, do_hello, h1, h2]
  · intro h1 h2
    unfold hello
    simp [attempt_versions, hno, hello_go, do_hello, h1, h2]
  · intro pref s2 hpref
    unfold hello
    cases pref with
    | v1 =>
        rcases h1 : behavior .v1 with _ | r1
        · rcases h2 : behavior .l01 with _ | r2
          · simp [attempt_versions, hpref, hello_go, do_hello, h1, h2]
          · simp [attempt_versions, hpref, hello_go, do_hello, h1, h2]
        · simp [attempt_versions, hpref, hello_go, do_hello, h1]
    | l01 =>
        rcases h2 : behavior .l01 with _ | r2
        · rcases h1 : behavior .v1 with _ | r1
          · simp [attempt_versions, hpref, hello_go, do_hello, h1, h2]
          · simp [attempt_versions, hpref, hello_go, do_hello, h1, h2]
        · simp [attempt_versions, hpref, hello_go, do_hello, h2]

/-- Witness for `c3_hello_version_negotiation`: a channel with fresh state
(`connect_nonce = 23456`, no negotiated version yet) facing a device that
never answers. -/
theorem c3_hello_version_negotiation_witness :
    (hello "abcdefghijklmnop" (fun _ => none)
        { connect_nonce := 23456, ack_nonce := none,
          local_protocol_version := none }).1.head? =
      some (do_hello_request 23456 .v1) ∧
    do_hello_request 23456 .v1 =
      { protocol := HELLO_REQUEST, version := "1.0", seq := 1,
        random := 23456, payload := none } ∧
    ((fun (_ : LocalProtocolVersion) => (none : Option RoborockMessage)) .v1 = none →
      (hello "abcdefghijklmnop" (fun _ => none)
          { connect_nonce := 23456, ack_nonce := none,
            local_protocol_version := none }).1 =
        [do_hello_request 23456 .v1, do_hello_request 23456 .l01]) ∧
    ((fun (_ : LocalProtocolVersion) => (none : Option RoborockMessage)) .v1 = none →
      (fun (_ : LocalProtocolVersion) => (none : Option RoborockMessage)) .l01 = none →
      (hello "abcdefghijklmnop" (fun _ => none)
          { connect_nonce := 23456, ack_nonce := none,
            local_protocol_version := none }).2 =
        .error "Failed to connect to device with any known protocol") ∧
    (∀ (pref : LocalProtocolVersion) (s2 : LocalChannelHelloState),
      s2.local_protocol_version = some pref →
      (hello "abcdefghijklmnop" (fun _ => none) s2).1.head? =
        some (do_hello_request s2.connect_nonce pref)) :=
  c3_hello_version_negotiation "abcdefghijklmnop" (fun _ => none)
    { connect_nonce := 23456, ack_nonce := none, local_protocol_version := none }
    rfl

/-- JSON-decoded value as produced by `json.loads` inside
`decode_rpc_response` (`roborock/protocols/b01_protocol.py`, whose callers
are in `devices/b01_q10_channel.py`): null, booleans, integers, strings,
arrays and string-keyed objects in document order. -/
inductive JValue where
  | null
  | bool (b : Bool)
  | num (n : Int)
  | str (s : String)
  | arr (elems : List JValue)
  | obj (entries : List (String × JValue))

/-- Characters stripped by Python `int(str)` around the literal
(the ASCII whitespace subset: space, tab, newline, carriage return,
vertical tab and form feed). -/
def is_py_space (c : Char) : Bool :=
  c == ' ' || c == '\t' || c == '\n' || c == '\r' || c == Char.ofNat 11 || c == Char.ofNat 12

/-- Numeric value of an ASCII digit character. -/
def digit_val (c : Char) : Nat := c.toNat - 48

/-- Remaining digits of a Python decimal literal after the first digit:
digits with single underscores allowed only between digits. -/
def parse_digits_rest (acc : Nat) : List Char → Option Nat
  | [] => some acc
  | '_' :: c :: rest =>
      if c.isDigit then parse_digits_rest (acc * 10 + digit_val c) rest else none
  | c :: rest =>
      if c.isDigit then parse_digits_rest (acc * 10 + digit_val c) rest else none

/-- Digit run of a Python decimal literal: at least one digit, then
`parse_digits_rest`. -/
def parse_digits : List Char → Option Nat
  | [] => none
  | c :: rest => if c.isDigit then parse_digits_rest (digit_val c) rest else none

/-- Embeds Python `int(s)` on a `str` as used by `_flatten_q10_dps`
(`devices/b01_q10_channel.py` line 124): strip surrounding whitespace,
optional sign, base-10 digits (underscores between digits); any other
shape raises `ValueError`, modelled as `none`.  ASCII digits only (the
unicode-digit acceptance of CPython is not modelled; no key in this
protocol uses them). -/
def py_int_of_string (s : String) : Option Int :=
  let cs := ((s.toList.dropWhile is_py_space).reverse.dropWhile is_py_space).reverse
  match cs with
  | '+' :: rest => (parse_digits rest).map Int.ofNat
  | '-' :: rest => (parse_digits rest).map (fun n => -(n : Int))
  | rest => (parse_digits rest).map Int.ofNat

/-- Python `dict` assignment `m[k] = v` on an insertion-ordered
association list: replace in place when the key is present, append
otherwise. -/
def dict_set : List (Int × JValue) → Int → JValue → List (Int × JValue)
  | [], k, v => [(k, v)]
  | (k', v') :: rest, k, v =>
      if k' = k then (k', v) :: rest else (k', v') :: dict_set rest k v

/-- Python `dict` lookup `m[k]` (first — and, given `dict_set`'s
invariant, only — entry with the key). -/
def dict_lookup : List (Int × JValue) → Int → Option JValue
  | [], _ => none
  | (k', v) :: rest, k => if k' = k then some v else dict_lookup rest k

/-- Uncurried `dict_set`, the fold step `flat[k] = v`. -/
def dict_set_entry (f : List (Int × JValue)) (q : Int × JValue) : List (Int × JValue) :=
  dict_set f q.1 q.2

/-- Inner loop body of `_flatten_q10_dps` over the entries nested under
key 101: convert the key with `int(...)`, skipping keys that raise
(`TypeError`/`ValueError`), and assign `flat[inner_dp] = inner_v`. -/
def flatten_inner (f : List (Int × JValue)) (q : String × JValue) : List (Int × JValue) :=
  match py_int_of_string q.1 with
  | some n => dict_set f n q.2
  | none => f

/-- Outer loop body of `_flatten_q10_dps`: an entry `101 ↦ dict` hoists
its integer-keyed entries, every other entry is assigned as-is. -/
def flatten_step (flat : List (Int × JValue)) (p : Int × JValue) : List (Int × JValue) :=
  match p with
  | (dp, JValue.obj entries) =>
      if dp = 101 then entries.foldl flatten_inner flat
      else dict_set flat dp (JValue.obj entries)
  | (dp, v) => dict_set flat dp v

/-- Embeds `_flatten_q10_dps` (`devices/b01_q10_channel.py` lines 110-130):
fold the decoded map in iteration (insertion) order into a fresh dict. -/
def flatten_q10_dps (decoded : List (Int × JValue)) : List (Int × JValue) :=
  decoded.foldl flatten_step []

/-- Specification-side conversion of one nested entry: its key through
`int(...)`, dropped when the conversion fails. -/
def int_key_entry (q : String × JValue) : Option (Int × JValue) :=
  (py_int_of_string q.1).map (fun n => (n, q.2))

/-- Specification-side contributions of one decoded entry to the
flattened map, in order: the integer-keyed nested entries for a
`101 ↦ dict` envelope, the entry itself otherwise. -/
def entry_contribs : Int × JValue → List (Int × JValue)
  | (dp, JValue.obj entries) =>
      if dp = 101 then entries.filterMap int_key_entry
      else [(dp, JValue.obj entries)]
  | (dp, v) => [(dp, v)]

/-- All contributions of a decoded map, in iteration order. -/
def contribs (decoded : List (Int × JValue)) : List (Int × JValue) :=
  decoded.flatMap entry_contribs

/-- Value of the last contribution carrying key `k`, if any: the
"later occurrence wins" reading of repeated assignment. -/
def last_assoc (l : List (Int × JValue)) (k : Int) : Option JValue :=
  l.foldl (fun acc p => if p.1 = k then some p.2 else acc) none

/-- Folding the last-match accumulator from any start equals the
last-contribution value, falling back to the start. -/
theorem last_assoc_foldl (k : Int) (l : List (Int × JValue)) (acc : Option JValue) :
    l.foldl (fun acc p => if p.1 = k then some p.2 else acc) acc =
      (last_assoc l k).or acc := by
  induction l generalizing acc with
  | nil => simp [last_assoc]
  | cons p rest ih =>
      show rest.foldl _ (if p.1 = k then some p.2 else acc) = _
      rw [ih]
      have h2 : last_assoc (p :: rest) k =
          (last_assoc rest k).or (if p.1 = k then some p.2 else none) := by
        show rest.foldl _ (if p.1 = k then some p.2 else none) = _
        rw [ih]
      rw [h2]
      rcases hlast : last_assoc rest k with _ | x
      · by_cases h : p.1 = k
        · simp [h]
        · simp [h]
      · simp

/-- Lookup after a single `dict_set`. -/
theorem dict_lookup_dict_set (m : List (Int × JValue)) (k k' : Int) (v : JValue) :
    dict_lookup (dict_set m k v) k' = if k' = k then some v else dict_lookup m k' := by
  induction m with
  | nil =>
      simp only [dict_set, dict_lookup]
      by_cases h : k = k'
      · simp [h]
      · rw [if_neg h, if_neg (fun hh => h hh.symm)]
  | cons p rest ih =>
      rcases p with ⟨k0, v0⟩
      by_cases h0 : k0 = k
      · subst h0
        simp only [dict_set, if_pos rfl, dict_lookup]
        by_cases h1 : k0 = k'
        · rw [if_pos h1, if_pos h1.symm]
        · rw [if_neg h1, if_neg (show ¬ k' = k0 from fun hh => h1 hh.symm), if_neg h1]
      · simp only [dict_set, if_neg h0, dict_lookup]
        by_cases h1 : k0 = k'
        · have hne : ¬ k' = k := fun hh => h0 (h1.trans hh)
          rw [if_pos h1, if_neg hne, if_pos h1]
        · rw [if_neg h1, ih, if_neg h1]

/-- Lookup after folding assignments equals the last assignment to the
key, falling back to the starting dict. -/
theorem dict_lookup_foldl_set (k : Int) (l : List (Int × JValue)) (m : List (Int × JValue)) :
    dict_lookup (l.foldl dict_set_entry m) k = (last_assoc l k).or (dict_lookup m k) := by
  induction l generalizing m with
  | nil => simp [last_assoc]
  | cons p rest ih =>
      show dict_lookup (rest.foldl dict_set_entry (dict_set_entry m p)) k = _
      rw [ih]
      have h2 : last_assoc (p :: rest) k =
          (last_assoc rest k).or (if p.1 = k then some p.2 else none) := by
        show rest.foldl _ (if p.1 = k then some p.2 else none) = _
        rw [last_assoc_foldl]
      rw [h2, dict_set_entry, dict_lookup_dict_set]
      rcases hlast : last_assoc rest k with _ | x
      · by_cases h : p.1 = k
        · simp [h]
        · have h' : ¬ k = p.1 := fun hh => h hh.symm
          simp [h, h']
      · simp

/-- The inner 101 loop is the fold of assignments over the successfully
integer-converted nested entries. -/
theorem flatten_inner_foldl (entries : List (String × JValue)) (flat : List (Int × JValue)) :
    entries.foldl flatten_inner flat =
      (entries.filterMap int_key_entry).foldl dict_set_entry flat := by
  induction entries generalizing flat with
  | nil => rfl
  | cons q rest ih =>
      rcases hq : py_int_of_string q.1 with _ | n
      · show rest.foldl flatten_inner (flatten_inner flat q) = _
        rw [show flatten_inner flat q = flat by simp [flatten_inner, hq]]
        rw [ih, show (q :: rest).filterMap int_key_entry = rest.filterMap int_key_entry by
          simp [List.filterMap_cons, int_key_entry, hq]]
      · show rest.foldl flatten_inner (flatten_inner flat q) = _
        rw [show flatten_inner flat q = dict_set flat n q.2 by simp [flatten_inner, hq]]
        rw [ih, show (q :: rest).filterMap int_key_entry =
              (n, q.2) :: rest.filterMap int_key_entry by
          simp [List.filterMap_cons, int_key_entry, hq]]
        rfl

/-- One outer step equals folding that entry's contributions. -/
theorem flatten_step_contribs (flat : List (Int × JValue)) (p : Int × JValue) :
    flatten_step flat p = (entry_contribs p).foldl dict_set_entry flat := by
  rcases p with ⟨dp, val⟩
  cases val with
  | obj entries =>
      by_cases h : dp = 101
      · simp [flatten_step, entry_contribs, h, flatten_inner_foldl]
      · simp [flatten_step, entry_contribs, h, dict_set_entry]
  | null => simp [flatten_step, entry_contribs, dict_set_entry]
  | bool b => simp [flatten_step, entry_contribs, dict_set_entry]
  | num n => simp [flatten_step, entry_contribs, dict_set_entry]
  | str s => simp [flatten_step, entry_contribs, dict_set_entry]
  | arr elems => simp [flatten_step, entry_contribs, dict_set_entry]

/-- The whole flattening is the fold of assignments over all
contributions in iteration order. -/
theorem flatten_foldl_contribs (decoded : List (Int × JValue)) (init : List (Int × JValue)) :
    decoded.foldl flatten_step init = (contribs decoded).foldl dict_set_entry init := by
  induction decoded generalizing init with
  | nil => rfl
  | cons p rest ih =>
      show rest.foldl flatten_step (flatten_step init p) = _
      rw [flatten_step_contribs, ih]
      simp [contribs, List.flatMap_cons, List.foldl_append]

/-- A non-envelope entry contributes exactly itself. -/
theorem entry_contribs_ne_101 (k : Int) (v : JValue) (hk : k ≠ 101) :
    entry_contribs (k, v) = [(k, v)] := by
  cases v <;> simp [entry_contribs, hk]

/-- The last contribution of an appended singleton with the looked-up key
wins. -/
theorem last_assoc_append_last (l : List (Int × JValue)) (k : Int) (w : JValue) :
    last_assoc (l ++ [(k, w)]) k = some w := by
  simp [last_assoc, List.foldl_append]

/-- CLAIM C2 as stated is false on `_flatten_q10_dps`
(`devices/b01_q10_channel.py`): for the decoded map
`{101: {"5": 1}, 5: 2}` — the 101 envelope first, as in the function's own
docstring example layout — the flattened map is `{5: 2}`: the top-level
value 2 overwrites the nested value 1, so the nested entry does not win. -/
theorem c2_counterexample :
    flatten_q10_dps [(101, JValue.obj [("5", JValue.num 1)]), (5, JValue.num 2)] =
      [(5, JValue.num 2)] ∧ JValue.num 2 ≠ JValue.num 1 := by
  constructor
  · rfl
  · simp

/-- CLAIM C2 (corrected).  The flattened map is the insertion-ordered
repeated assignment of all contributions — top-level entries as
themselves, a `101 ↦ dict` envelope as its integer-converted entries
(non-integer nested keys dropped) — so for every key the value of the
contribution occurring last in `M`'s iteration order wins.  In
particular, when the same integer key occurs both nested under 101 and at
top level, the nested value wins exactly when the 101 envelope comes
after the top-level entry; when the envelope comes first, the top-level
value wins. -/
theorem c2_flatten_q10_dps_resolution
    (decoded : List (Int × JValue)) (k : Int) (s : String) (v w : JValue)
    (hs : py_int_of_string s = some k) (hk : k ≠ 101) :
    dict_lookup (flatten_q10_dps decoded) k = last_assoc (contribs decoded) k ∧
    dict_lookup (flatten_q10_dps [(k, v), (101, JValue.obj [(s, w)])]) k = some w ∧
    dict_lookup (flatten_q10_dps [(101, JValue.obj [(s, w)]), (k, v)]) k = some v := by
  have hmain : ∀ (d : List (Int × JValue)),
      dict_lookup (flatten_q10_dps d) k = last_assoc (contribs d) k := by
    intro d
    show dict_lookup (d.foldl flatten_step []) k = _
    rw [flatten_foldl_contribs, dict_lookup_foldl_set]
    rcases h : last_assoc (contribs d) k with _ | x
    · simp [dict_lookup]
    · simp
  refine ⟨hmain decoded, ?_, ?_⟩
  · rw [hmain]
    have henv : entry_contribs (101, JValue.obj [(s, w)]) = [(k, w)] := by
      simp [entry_contribs, int_key_entry, hs]
    have hc : contribs [(k, v), (101, JValue.obj [(s, w)])] =
        (k, v) :: [(k, w)] := by
      simp only [contribs, List.flatMap_cons, List.flatMap_nil, List.append_nil]
      rw [entry_contribs_ne_101 k v hk, henv]
      rfl
    rw [hc]
    simp [last_assoc]
  · rw [hmain]
    have henv : entry_contribs (101, JValue.obj [(s, w)]) = [(k, w)] := by
      simp [entry_contribs, int_key_entry, hs]
    have hc : contribs [(101, JValue.obj [(s, w)]), (k, v)] =
        (k, w) :: [(k, v)] := by
      simp only [contribs, List.flatMap_cons, List.flatMap_nil, List.append_nil]
      rw [entry_contribs_ne_101 k v hk, henv]
      rfl
    rw [hc]
    simp [last_assoc]

/-- Witness for `c2_flatten_q10_dps_resolution` at key 5, nested key "5",
values 7 and 8, and the decoded map of scenario 4 of the spec. -/
theorem c2_flatten_q10_dps_resolution_witness :
    dict_lookup (flatten_q10_dps
        [(101, JValue.obj [("121", JValue.num 5), ("122", JValue.num 100)]),
         (123, JValue.num 2)]) 5 =
      last_assoc (contribs
        [(101, JValue.obj [("121", JValue.num 5), ("122", JValue.num 100)]),
         (123, JValue.num 2)]) 5 ∧
    dict_lookup (flatten_q10_dps
        [(5, JValue.num 7), (101, JValue.obj [("5", JValue.num 8)])]) 5 =
      some (JValue.num 8) ∧
    dict_lookup (flatten_q10_dps
        [(101, JValue.obj [("5", JValue.num 8)]), (5, JValue.num 7)]) 5 =
      some (JValue.num 7) :=
  c2_flatten_q10_dps_resolution
    [(101, JValue.obj [("121", JValue.num 5), ("122", JValue.num 100)]),
     (123, JValue.num 2)]
    5 "5" (JValue.num 7) (JValue.num 8) rfl (by decide)

/-- The match test of `find_response` inside `LocalChannel.send_message`
(`devices/local_channel.py` lines 212-214): the inbound frame's protocol
equals the expected response protocol and its `seq` equals the request id. -/
def matches_response (response_protocol request_id : Nat) (m : RoborockMessage) : Bool :=
  m.protocol == response_protocol && m.seq == request_id

/-- Net effect of delivering one inbound frame to the registered waiter:
`find_response` calls `future.set_result` on a match; on an
already-completed future `set_result` raises `InvalidStateError`, which the
subscriber list catches and logs, leaving the result unchanged (Modelled
from the spec: `CallbackList` lives in `roborock/callbacks.py`, not under
`src/`; spec section 4.2 — callback exceptions are caught and logged but
never propagate). -/
def deliver_to_waiter (response_protocol request_id : Nat)
    (fut : Option RoborockMessage) (m : RoborockMessage) : Option RoborockMessage :=
  if fut.isNone && matches_response response_protocol request_id m then some m else fut

/-- Result the awaited future holds after the inbound frames that arrive
while the waiter is registered have been dispatched in arrival order. -/
def await_response (response_protocol request_id : Nat)
    (arrivals : List RoborockMessage) : Option RoborockMessage :=
  arrivals.foldl (deliver_to_waiter response_protocol request_id) none

/-- Unsubscription: removes the registered callback from the channel's
subscriber list (first occurrence of its id).  Modelled from the spec:
`CallbackList.add_callback` returns a remove-function
(`roborock/callbacks.py` is not under `src/`; spec section 3 — dropping
the handle removes the callback). -/
def remove_waiter : List Nat → Nat → List Nat
  | [], _ => []
  | w :: rest, wid => if w = wid then rest else w :: remove_waiter rest wid

/-- Embeds `LocalChannel.send_message` (`devices/local_channel.py` lines
203-224): create a fresh future, subscribe `find_response`, publish, await
the future under the 10 s timeout — on timeout cancel the future and raise
`RoborockException("Command timed out after 10.0s")` — and in the
`finally` block unsubscribe the waiter.  Inputs: the channel's current
subscriber ids, a fresh id for this waiter, whether `publish` succeeded,
and the frames delivered to subscribers before the timeout fires. -/
def send_message (subscribers : List Nat) (wid : Nat)
    (response_protocol request_id : Nat) (publish_ok : Bool)
    (arrivals : List RoborockMessage) :
    Except String RoborockMessage × List Nat :=
  let subscribed := subscribers ++ [wid]
  let outcome : Except String RoborockMessage :=
    if publish_ok then
      match await_response response_protocol request_id arrivals with
      | some m => .ok m
      | none => .error "Command timed out after 10.0s"
    else .error "Failed to send message"
  (outcome, remove_waiter subscribed wid)

/-- A completed future is never re-completed by later deliveries. -/
theorem deliver_to_waiter_stable (response_protocol request_id : Nat)
    (later : List RoborockMessage) (r : RoborockMessage) :
    later.foldl (deliver_to_waiter response_protocol request_id) (some r) = some r := by
  induction later with
  | nil => rfl
  | cons m rest ih =>
      show rest.foldl _ (deliver_to_waiter _ _ (some r) m) = _
      rw [show deliver_to_waiter response_protocol request_id (some r) m = some r by
        simp [deliver_to_waiter]]
      exact ih

/-- The future completes with exactly the first matching arrival. -/
theorem await_response_eq_find (response_protocol request_id : Nat)
    (arrivals : List RoborockMessage) :
    await_response response_protocol request_id arrivals =
      arrivals.find? (matches_response response_protocol request_id) := by
  induction arrivals with
  | nil => rfl
  | cons m rest ih =>
      show rest.foldl _ (deliver_to_waiter _ _ none m) = _
      by_cases hm : matches_response response_protocol request_id m = true
      · rw [show deliver_to_waiter response_protocol request_id none m = some m by
          simp [deliver_to_waiter, hm]]
        rw [deliver_to_waiter_stable, List.find?_cons_of_pos _ hm]
      · rw [show deliver_to_waiter response_protocol request_id none m = none by
          simp [deliver_to_waiter, hm]]
        rw [List.find?_cons_of_neg _ (by simpa using hm)]
        exact ih

/-- Removing a freshly registered waiter restores the subscriber list. -/
theorem remove_waiter_append (subscribers : List Nat) (wid : Nat)
    (hw : wid ∉ subscribers) :
    remove_waiter (subscribers ++ [wid]) wid = subscribers := by
  induction subscribers with
  | nil => simp [remove_waiter]
  | cons w rest ih =>
      have hne : ¬ w = wid := fun h => hw (by simp [h])
      have hrest : wid ∉ rest := fun h => hw (List.mem_cons_of_mem _ h)
      simp only [List.cons_append, remove_waiter, if_neg hne]
      exact congrArg (fun l => w :: l) (ih hrest)

/-- CLAIM C4 (confirmed).  For every `send_message` call and every arrival
order of inbound frames, the call completes exactly once: with the first
inbound frame whose protocol equals the expected response protocol and
whose `seq` equals the request id, or with the 10 s timeout error when no
frame matches; a completed future is never re-completed by later matching
frames; and on every completion path — response, timeout, and publish
failure — the registered waiter has been removed when the call returns or
raises. -/
theorem c4_send_message_correlation
    (subscribers : List Nat) (wid : Nat) (response_protocol request_id : Nat)
    (arrivals : List RoborockMessage) (hw : wid ∉ subscribers) :
    ((∃ m, (send_message subscribers wid response_protocol request_id true arrivals).1 =
          .ok m ∧
        arrivals.find? (matches_response response_protocol request_id) = some m) ∨
      ((send_message subscribers wid response_protocol request_id true arrivals).1 =
          .error "Command timed out after 10.0s" ∧
        arrivals.find? (matches_response response_protocol request_id) = none)) ∧
    (∀ (publish_ok : Bool),
      (send_message subscribers wid response_protocol request_id publish_ok arrivals).2 =
        subscribers) ∧
    (∀ (r : RoborockMessage) (later : List RoborockMessage),
      later.foldl (deliver_to_waiter response_protocol request_id) (some r) = some r) := by
  refine ⟨?_, ?_, ?_⟩
  · rcases hfind : arrivals.find? (matches_response response_protocol request_id) with _ | m
    · right
      constructor
      · simp [send_message, await_response_eq_find, hfind]
      · rfl
    · left
      refine ⟨m, ?_, rfl⟩
      simp [send_message, await_response_eq_find, hfind]
  · intro publish_ok
    simp [send_message, remove_waiter_append subscribers wid hw]
  · intro r later
    exact deliver_to_waiter_stable response_protocol request_id later r

/-- Witness for `c4_send_message_correlation`: an empty subscriber list,
waiter id 1, and two inbound frames of which the second matches
`(RPC_RESPONSE, 12345)`. -/
theorem c4_send_message_correlation_witness :
    ((∃ m, (send_message [] 1 RPC_RESPONSE 12345 true
          [{ protocol := MAP_RESPONSE, seq := 7 },
           { protocol := RPC_RESPONSE, seq := 12345 }]).1 = .ok m ∧
        [{ protocol := MAP_RESPONSE, seq := 7 },
         ({ protocol := RPC_RESPONSE, seq := 12345 } : RoborockMessage)].find?
            (matches_response RPC_RESPONSE 12345) = some m) ∨
      ((send_message [] 1 RPC_RESPONSE 12345 true
          [{ protocol := MAP_RESPONSE, seq := 7 },
           { protocol := RPC_RESPONSE, seq := 12345 }]).1 =
          .error "Command timed out after 10.0s" ∧
        [{ protocol := MAP_RESPONSE, seq := 7 },
         ({ protocol := RPC_RESPONSE, seq := 12345 } : RoborockMessage)].find?
            (matches_response RPC_RESPONSE 12345) = none)) ∧
    (∀ (publish_ok : Bool),
      (send_message [] 1 RPC_RESPONSE 12345 publish_ok
          [{ protocol := MAP_RESPONSE, seq := 7 },
           { protocol := RPC_RESPONSE, seq := 12345 }]).2 = []) ∧
    (∀ (r : RoborockMessage) (later : List RoborockMessage),
      later.foldl (deliver_to_waiter RPC_RESPONSE 12345) (some r) = some r) :=
  c4_send_message_correlation [] 1 RPC_RESPONSE 12345
    [{ protocol := MAP_RESPONSE, seq := 7 },
     { protocol := RPC_RESPONSE, seq := 12345 }]
    (by simp)

/-- `MIN_BACKOFF_INTERVAL = timedelta(seconds=10)` (`devices/device.py`
line 39), in microseconds — the resolution of Python's `timedelta`. -/
def MIN_BACKOFF_INTERVAL : Nat := 10000000

/-- `MAX_BACKOFF_INTERVAL = timedelta(minutes=30)` (`devices/device.py`
line 40), in microseconds. -/
def MAX_BACKOFF_INTERVAL : Nat := 1800000000

/-- CPython's `_divide_and_round` (round half to even) on nonnegative
operands, the rounding `timedelta.__mul__(float)` applies to
microseconds. -/
def divide_and_round (a b : Nat) : Nat :=
  let q := a / b
  let r := a % b
  if 2 * r > b ∨ (2 * r = b ∧ q % 2 = 1) then q + 1 else q

/-- `backoff * BACKOFF_MULTIPLIER` with `BACKOFF_MULTIPLIER = 1.5`
(`devices/device.py` line 41): `timedelta * float` computes
`_divide_and_round(microseconds * 3, 2)` since
`(1.5).as_integer_ratio() == (3, 2)`. -/
def mul_backoff_multiplier (n : Nat) : Nat := divide_and_round (3 * n) 2

/-- `min(backoff * BACKOFF_MULTIPLIER, MAX_BACKOFF_INTERVAL)`
(`devices/device.py` line 181). -/
def backoff_step (n : Nat) : Nat :=
  min (mul_backoff_multiplier n) MAX_BACKOFF_INTERVAL

/-- The successive sleep intervals of `connect_loop`
(`devices/device.py` lines 165-192): the loop sleeps the current backoff
and then multiplies it, so the k-th sleep is the k-th element of this
sequence, starting from `MIN_BACKOFF_INTERVAL`. -/
def backoff_seq : Nat → Nat
  | 0 => MIN_BACKOFF_INTERVAL
  | k + 1 => backoff_step (backoff_seq k)

/-- Multiplying by 1.5 (with timedelta rounding) never decreases. -/
theorem le_mul_backoff_multiplier (n : Nat) : n ≤ mul_backoff_multiplier n := by
  show n ≤ if 2 * (3 * n % 2) > 2 ∨ (2 * (3 * n % 2) = 2 ∧ (3 * n / 2) % 2 = 1)
      then 3 * n / 2 + 1 else 3 * n / 2
  split
  · omega
  · omega

/-- Every sleep interval is at most 30 minutes. -/
theorem backoff_seq_le_max (k : Nat) : backoff_seq k ≤ MAX_BACKOFF_INTERVAL := by
  induction k with
  | zero =>
      show MIN_BACKOFF_INTERVAL ≤ MAX_BACKOFF_INTERVAL
      norm_num [MIN_BACKOFF_INTERVAL, MAX_BACKOFF_INTERVAL]
  | succ k ih =>
      exact min_le_right _ _

/-- CLAIM C5 (confirmed).  The sleep-interval sequence of the device
reconnect loop starts at 10 s; each subsequent interval is the previous
one multiplied by 1.5 (under `timedelta`'s microsecond rounding) capped at
30 minutes; the sequence is monotonically non-decreasing; and it is
bounded above by 30 minutes for every number of consecutive failures. -/
theorem c5_reconnect_backoff :
    backoff_seq 0 = MIN_BACKOFF_INTERVAL ∧
    MIN_BACKOFF_INTERVAL = 10000000 ∧
    MAX_BACKOFF_INTERVAL = 1800000000 ∧
    (∀ k, backoff_seq (k + 1) =
      min (mul_backoff_multiplier (backoff_seq k)) MAX_BACKOFF_INTERVAL) ∧
    (∀ k, backoff_seq k ≤ backoff_seq (k + 1)) ∧
    (∀ k, backoff_seq k ≤ MAX_BACKOFF_INTERVAL) := by
  refine ⟨rfl, rfl, rfl, fun k => rfl, fun k => ?_, backoff_seq_le_max⟩
  show backoff_seq k ≤ backoff_step (backoff_seq k)
  exact le_min (le_mul_backoff_multiplier _) (backoff_seq_le_max k)

/-- Outcome of one `connect()` attempt inside the reconnect loop of
`devices/device.py`: success, a `RoborockException` (the transient,
Roborock-typed errors of the `except RoborockException` clause), or any
other `Exception` (the `except Exception` clause). -/
inductive ConnectAttemptResult where
  | success
  | roborockError
  | otherError
deriving DecidableEq, Repr

/-- Observable trace of one `connect_loop` run: how many times the ready
callbacks were fired, how many backoff sleeps were taken, and whether the
loop returned. -/
structure ConnectLoopTrace where
  ready_fires : Nat
  sleeps : Nat
  returned : Bool
deriving DecidableEq, Repr

/-- Embeds `connect_loop` (`devices/device.py` lines 165-192) over the
successive outcomes of its `connect()` attempts: on success it latches
`_has_connected`, fires the ready callbacks once and returns; on a
`RoborockException` it logs, sleeps the current backoff and retries; on
any other exception it logs and returns without sleeping or retrying.
When the outcome list is exhausted the loop is still running
(`returned = false`). -/
def connect_loop : List ConnectAttemptResult → ConnectLoopTrace
  | [] => { ready_fires := 0, sleeps := 0, returned := false }
  | .success :: _ => { ready_fires := 1, sleeps := 0, returned := true }
  | .roborockError :: rest =>
      let t := connect_loop rest
      { ready_fires := t.ready_fires, sleeps := t.sleeps + 1, returned := t.returned }
  | .otherError :: _ => { ready_fires := 0, sleeps := 0, returned := true }

/-- CLAIM C6 (confirmed).  A transient (Roborock-typed) connection error
never terminates the reconnect loop: the loop sleeps once and continues
exactly as it would on the remaining outcomes — in particular any number
of consecutive transient errors leaves the loop running — whereas a
non-transient exception terminates the loop immediately, with no ready
callbacks fired and no retry sleep. -/
theorem c6_transient_vs_fatal_errors :
    (∀ rest, connect_loop (.roborockError :: rest) =
      { ready_fires := (connect_loop rest).ready_fires,
        sleeps := (connect_loop rest).sleeps + 1,
        returned := (connect_loop rest).returned }) ∧
    (∀ rest, connect_loop (.otherError :: rest) =
      { ready_fires := 0, sleeps := 0, returned := true }) ∧
    (∀ k, connect_loop (List.replicate k .roborockError) =
      { ready_fires := 0, sleeps := k, returned := false }) := by
  refine ⟨fun rest => rfl, fun rest => rfl, fun k => ?_⟩
  induction k with
  | zero => rfl
  | succ k ih =>
      show connect_loop (.roborockError :: List.replicate k .roborockError) = _
      rw [show connect_loop (.roborockError :: List.replicate k .roborockError) =
        { ready_fires := (connect_loop (List.replicate k .roborockError)).ready_fires,
          sleeps := (connect_loop (List.replicate k .roborockError)).sleeps + 1,
          returned := (connect_loop (List.replicate k .roborockError)).returned } from rfl]
      rw [ih]

/-- Ready-callback state of a `RoborockDevice`: the `_ready_callbacks`
list (in registration order) and the `_has_connected` latch of
`devices/device.py`. -/
structure DeviceReadyState where
  ready_callbacks : List Nat
  has_connected : Bool
deriving DecidableEq, Repr

/-- Embeds `RoborockDevice.add_ready_callback` (`devices/device.py` lines
129-143): append the callback to the `CallbackList` and, when the device
has already connected, invoke it immediately; returns the new state and
the list of immediate invocations.  The append-in-registration-order
behaviour of `CallbackList.add_callback` is modelled from the spec
(`roborock/callbacks.py` is not under `src/`; spec section 4.2 —
callbacks run in insertion order). -/
def add_ready_callback (s : DeviceReadyState) (cb : Nat) : DeviceReadyState × List Nat :=
  ({ s with ready_callbacks := s.ready_callbacks ++ [cb] },
   if s.has_connected then [cb] else [])

/-- Invocation order produced by firing the ready `CallbackList`
(`self._ready_callbacks(self)` in `connect_loop`): each registered
callback once, walked front to back.  Modelled from the spec:
`roborock/callbacks.py` is not under `src/`; spec section 4.2 — callbacks
see each event in insertion order. -/
def fire_ready_callbacks (s : DeviceReadyState) : List Nat :=
  s.ready_callbacks.foldl (fun acc cb => acc ++ [cb]) []

/-- Folding appends of singletons reproduces the list after the
accumulator. -/
theorem foldl_append_singleton (l acc : List Nat) :
    l.foldl (fun acc cb => acc ++ [cb]) acc = acc ++ l := by
  induction l generalizing acc with
  | nil => simp
  | cons cb rest ih =>
      show rest.foldl _ (acc ++ [cb]) = _
      rw [ih]
      simp

/-- The reconnect loop fires the ready callbacks at most once. -/
theorem connect_loop_ready_le_one (l : List ConnectAttemptResult) :
    (connect_loop l).ready_fires ≤ 1 := by
  induction l with
  | nil => exact Nat.zero_le 1
  | cons a rest ih =>
      cases a with
      | success => exact Nat.le_refl 1
      | roborockError => exact ih
      | otherError => exact Nat.zero_le 1

/-- The ready callbacks fire exactly once precisely when some attempt
succeeds after a (possibly empty) run of transient errors. -/
theorem connect_loop_ready_eq_one_iff (l : List ConnectAttemptResult) :
    (connect_loop l).ready_fires = 1 ↔
      ∃ k rest, l = List.replicate k ConnectAttemptResult.roborockError ++
        ConnectAttemptResult.success :: rest := by
  constructor
  · intro h
    induction l with
    | nil => exact absurd h (by simp [connect_loop])
    | cons a rest ih =>
        cases a with
        | success => exact ⟨0, rest, rfl⟩
        | roborockError =>
            rcases ih h with ⟨k, r, hr⟩
            exact ⟨k + 1, r, by rw [List.replicate_succ, List.cons_append, hr]⟩
        | otherError => exact absurd h (by simp [connect_loop])
  · rintro ⟨k, rest, rfl⟩
    induction k with
    | zero => rfl
    | succ k ih =>
        rw [List.replicate_succ, List.cons_append]
        show (connect_loop (List.replicate k _ ++ _)).ready_fires = 1
        exact ih

/-- CLAIM C7 (confirmed).  In one reconnect-loop run the registered ready
callbacks are fired exactly once — on the first successful connect, and
never when the loop terminates without a success; firing walks the
callbacks in registration order; and a callback added via
`add_ready_callback` after the device has already connected runs
immediately at registration time (and is not run immediately when the
device has not yet connected). -/
theorem c7_ready_callbacks_once_in_order :
    (∀ l, (connect_loop l).ready_fires ≤ 1) ∧
    (∀ l, (connect_loop l).ready_fires = 1 ↔
      ∃ k rest, l = List.replicate k ConnectAttemptResult.roborockError ++
        ConnectAttemptResult.success :: rest) ∧
    (∀ s, fire_ready_callbacks s = s.ready_callbacks) ∧
    (∀ cbs cb, (add_ready_callback { ready_callbacks := cbs, has_connected := true } cb).2 =
      [cb]) ∧
    (∀ cbs cb, (add_ready_callback { ready_callbacks := cbs, has_connected := false } cb).2 =
      []) ∧
    (∀ s cb, (add_ready_callback s cb).1.ready_callbacks = s.ready_callbacks ++ [cb]) := by
  refine ⟨connect_loop_ready_le_one, connect_loop_ready_eq_one_iff, ?_, ?_, ?_, ?_⟩
  · intro s
    exact foldl_append_singleton s.ready_callbacks []
  · intro cbs cb
    rfl
  · intro cbs cb
    rfl
  · intro s cb
    rfl

/-- Failure mode of `mqtt_channel.publish` as discriminated by the
`except` clauses of `send_b01_dp_command`: a `TimeoutError`, or any other
`Exception`. -/
inductive PublishError where
  | timeoutError
  | other (msg : String)
deriving DecidableEq, Repr

/-- Health signal of the MQTT channel.  Modelled from the spec:
`mqtt_channel.health_manager` lives in `devices/transport/mqtt_channel.py`
which is not under `src/`; spec section 4.5 — publish timeouts are
recorded in the channel's health signal. -/
structure HealthManager where
  success_count : Nat
  timeout_count : Nat
deriving DecidableEq, Repr

/-- `health_manager.on_success()`: record a success. -/
def on_success (h : HealthManager) : HealthManager :=
  { h with success_count := h.success_count + 1 }

/-- `health_manager.on_timeout()`: record a timeout. -/
def on_timeout (h : HealthManager) : HealthManager :=
  { h with timeout_count := h.timeout_count + 1 }

/-- Embeds `send_b01_dp_command` (`devices/b01_q10_channel.py` lines
133-162): publish the encoded DP command and return `None`; on success
record a success on the health signal; on a publish `TimeoutError` record
a timeout and log; on any other publish `Exception` log only.  No
response waiter is installed at any point, so the subscriber list is
passed through untouched; no branch raises. -/
def send_b01_dp_command (publish_result : Except PublishError Unit)
    (h : HealthManager) (subscribers : List Nat) :
    Except String Unit × HealthManager × List Nat :=
  match publish_result with
  | .ok _ => (.ok (), on_success h, subscribers)
  | .error .timeoutError => (.ok (), on_timeout h, subscribers)
  | .error (.other _) => (.ok (), h, subscribers)

/-- CLAIM C8 (confirmed).  For every outcome of the underlying publish,
`send_b01_dp_command` returns `None` without raising and leaves the
subscriber list unchanged (no response waiter installed); a successful
publish records a success on the health signal, a publish timeout records
a timeout, and any other publish error leaves the health signal unchanged
(it is only logged); no error reaches the caller. -/
theorem c8_fire_and_forget_dp_command :
    (∀ (r : Except PublishError Unit) (h : HealthManager) (subs : List Nat),
      (send_b01_dp_command r h subs).1 = .ok ()) ∧
    (∀ (r : Except PublishError Unit) (h : HealthManager) (subs : List Nat),
      (send_b01_dp_command r h subs).2.2 = subs) ∧
    (∀ (h : HealthManager) (subs : List Nat),
      (send_b01_dp_command (.ok ()) h subs).2.1 = on_success h) ∧
    (∀ (h : HealthManager) (subs : List Nat),
      (send_b01_dp_command (.error .timeoutError) h subs).2.1 = on_timeout h) ∧
    (∀ (msg : String) (h : HealthManager) (subs : List Nat),
      (send_b01_dp_command (.error (.other msg)) h subs).2.1 = h) := by
  refine ⟨?_, ?_, fun h subs => rfl, fun h subs => rfl, fun msg h subs => rfl⟩
  · intro r h subs
    cases r with
    | ok u => rfl
    | error e =>
        cases e with
        | timeoutError => rfl
        | other msg => rfl
  · intro r h subs
    cases r with
    | ok u => rfl
    | error e =>
        cases e with
        | timeoutError => rfl
        | other msg => rfl

/-- Observable state of the local V1 client's transport: the raw messages
written to the socket by `_send_msg_raw` and the waiters registered by
`_async_response`. -/
structure LocalTransportState where
  written : List RoborockMessage
  pending_request_ids : List Nat
deriving DecidableEq, Repr

/-- Embeds the cloud-only gate of `RoborockLocalClientV1._send_command`
(`version_1_apis/roborock_local_client_v1.py` lines 183-189): when the
method is in `CLOUD_REQUIRED`, raise
`RoborockException(f"Method {method} is not supported over local connection")`
before building any message; otherwise continue with the rest of the
body, here abstracted as `proceed`.  The contents of the `CLOUD_REQUIRED`
allow-list (defined in `roborock_client_v1.py`, not under `src/`) are a
parameter; the gate's behaviour holds for any list. -/
def send_command_cloud_gate (cloud_required : List String) (method : String)
    (st : LocalTransportState)
    (proceed : LocalTransportState → Except String RoborockMessage × LocalTransportState) :
    Except String RoborockMessage × LocalTransportState :=
  if method ∈ cloud_required then
    (.error ("Method " ++ method ++ " is not supported over local connection"), st)
  else proceed st

/-- CLAIM C9 (confirmed).  For every method in the cloud-required
allow-list, `_send_command` on the local V1 client raises before any
bytes are written: the error is produced with the transport state exactly
as it was — nothing appended to `written`, no waiter registered — and the
rest of the send path (`proceed`) is never consulted, as the outcome is
identical for every `proceed`. -/
theorem c9_cloud_required_gate
    (cloud_required : List String) (method : String) (st : LocalTransportState)
    (proceed : LocalTransportState → Except String RoborockMessage × LocalTransportState)
    (hm : method ∈ cloud_required) :
    send_command_cloud_gate cloud_required method st proceed =
      (.error ("Method " ++ method ++ " is not supported over local connection"), st) ∧
    (send_command_cloud_gate cloud_required method st proceed).2.written = st.written ∧
    (∀ proceed',
      send_command_cloud_gate cloud_required method st proceed =
        send_command_cloud_gate cloud_required method st proceed') := by
  refine ⟨?_, ?_, ?_⟩
  · simp [send_command_cloud_gate, hm]
  · simp [send_command_cloud_gate, hm]
  · intro proceed'
    simp [send_command_cloud_gate, hm]

/-- Witness for `c9_cloud_required_gate`: the method "get_map_v1" in a
one-element allow-list, an empty transport state, and a `proceed` that
would record a write. -/
theorem c9_cloud_required_gate_witness :
    send_command_cloud_gate ["get_map_v1"] "get_map_v1"
        { written := [], pending_request_ids := [] }
        (fun st => (.ok { protocol := RPC_RESPONSE }, st)) =
      (.error ("Method " ++ "get_map_v1" ++ " is not supported over local connection"),
        { written := [], pending_request_ids := [] }) ∧
    (send_command_cloud_gate ["get_map_v1"] "get_map_v1"
        { written := [], pending_request_ids := [] }
        (fun st => (.ok { protocol := RPC_RESPONSE }, st))).2.written = [] ∧
    (∀ proceed',
      send_command_cloud_gate ["get_map_v1"] "get_map_v1"
          { written := [], pending_request_ids := [] }
          (fun st => (.ok { protocol := RPC_RESPONSE }, st)) =
        send_command_cloud_gate ["get_map_v1"] "get_map_v1"
          { written := [], pending_request_ids := [] } proceed') :=
  c9_cloud_required_gate ["get_map_v1"] "get_map_v1"
    { written := [], pending_request_ids := [] }
    (fun st => (.ok { protocol := RPC_RESPONSE }, st))
    (by simp)

/-- Connection state of a `LocalChannel`: whether `_transport` is set and
the `_is_connected` flag (`devices/local_channel.py`). -/
structure LocalChannelState where
  transport : Bool
  is_connected : Bool
deriving DecidableEq, Repr

/-- Embeds `LocalChannel.close` (`devices/local_channel.py` lines
165-172): close the transport if any, then set `_transport = None` and
`_is_connected = False`. -/
def close_channel (s : LocalChannelState) : LocalChannelState :=
  { s with transport := false, is_connected := false }

/-- Effects of one `connect` call: how many TCP connection attempts were
made (`loop.create_connection` calls) and whether the HELLO negotiation
ran. -/
structure ConnectEffects where
  connections_opened : Nat
  hello_attempts : Nat
deriving DecidableEq, Repr

/-- Embeds `LocalChannel.connect` (`devices/local_channel.py` lines
143-163): if already connected, warn and return at once (no new
connection, no HELLO); otherwise open TCP — on `OSError` raise
`RoborockConnectionException` — set `_transport` and
`_is_connected = True`, then run `_hello()`; if negotiation fails, call
`close()` and re-raise. -/
def connect (tcp_ok : Bool) (hello_ok : Bool) (s : LocalChannelState) :
    Except String Unit × LocalChannelState × ConnectEffects :=
  if s.is_connected then
    (.ok (), s, { connections_opened := 0, hello_attempts := 0 })
  else if tcp_ok = false then
    (.error "Failed to connect", s, { connections_opened := 1, hello_attempts := 0 })
  else
    let connected : LocalChannelState := { transport := true, is_connected := true }
    if hello_ok then
      (.ok (), connected, { connections_opened := 1, hello_attempts := 1 })
    else
      (.error "Failed to connect to device with any known protocol",
        close_channel connected, { connections_opened := 1, hello_attempts := 1 })

/-- Embeds `LocalChannel.publish`'s connection guard
(`devices/local_channel.py` lines 184-190): raise
`RoborockConnectionException("Not connected to device")` when the
transport is gone or the channel is not connected. -/
def publish (s : LocalChannelState) : Except String Unit :=
  if s.transport = false ∨ s.is_connected = false then
    .error "Not connected to device"
  else .ok ()

/-- CLAIM C10 (confirmed).  When the TCP connection opens but HELLO
negotiation fails, `connect` closes the transport before re-raising: the
resulting state has `is_connected = false` and a `publish` attempt on it
raises the connection error.  Conversely, `connect` on an
already-connected channel returns `ok` at once, leaving the state
untouched, opening no second connection and performing no HELLO. -/
theorem c10_connect_cleanup_and_idempotence
    (s : LocalChannelState) (hni : s.is_connected = false)
    (s' : LocalChannelState) (hc : s'.is_connected = true)
    (tcp_ok hello_ok : Bool) :
    connect true false s =
      (.error "Failed to connect to device with any known protocol",
        { transport := false, is_connected := false },
        { connections_opened := 1, hello_attempts := 1 }) ∧
    (connect true false s).2.1.is_connected = false ∧
    publish (connect true false s).2.1 = .error "Not connected to device" ∧
    connect tcp_ok hello_ok s' =
      (.ok (), s', { connections_opened := 0, hello_attempts := 0 }) := by
  refine ⟨?_, ?_, ?_, ?_⟩
  · simp [connect, hni, close_channel]
  · simp [connect, hni, close_channel]
  · simp [connect, hni, close_channel, publish]
  · simp [connect, hc]

/-- Witness for `c10_connect_cleanup_and_idempotence`: a fresh
disconnected channel and a connected channel with a live transport. -/
theorem c10_connect_cleanup_and_idempotence_witness :
    connect true false { transport := false, is_connected := false } =
      (.error "Failed to connect to device with any known protocol",
        { transport := false, is_connected := false },
        { connections_opened := 1, hello_attempts := 1 }) ∧
    (connect true false
        { transport := false, is_connected := false }).2.1.is_connected = false ∧
    publish (connect true false
        { transport := false, is_connected := false }).2.1 =
      .error "Not connected to device" ∧
    connect true true { transport := true, is_connected := true } =
      (.ok (), { transport := true, is_connected := true },
        { connections_opened := 0, hello_attempts := 0 }) :=
  c10_connect_cleanup_and_idempotence
    { transport := false, is_connected := false } rfl
    { transport := true, is_connected := true } rfl
    true true
